import Mathlib

/-!
Shallow embedding of the special-profile synchronization and versioned-upgrade
subsystem (package `profile`, file with `getSpecialProfile`,
`updateSpecialProfileMetadata`, `specialProfileNeedsReset`, `canBeUpgraded`).

Profiles are embedded as an explicit record; the Go functions that mutate a
profile through a pointer are embedded in state-passing style, returning the
updated record alongside their boolean results.
-/

namespace Portmaster

/-- Profile ID used for unidentified processes. -/
def UnidentifiedProfileID : String := "_unidentified"

/-- Name used for unidentified processes. -/
def UnidentifiedProfileName : String := "Unidentified Processes"

/-- Description used for unidentified processes. -/
def UnidentifiedProfileDescription : String :=
  "This is not a real application, but a collection of connections that could not be attributed to a process. This could be because the Portmaster failed to identify the process, or simply because there is no process waiting for an incoming connection.\n\nSeeing a lot of incoming connections here is normal, as this resembles the network chatter of other devices.\n"

/-- Profile ID used for the system/kernel. -/
def SystemProfileID : String := "_system"

/-- Name used for the system/kernel. -/
def SystemProfileName : String := "Operating System"

/-- Description used for the system/kernel. -/
def SystemProfileDescription : String := "This is the operation system itself."

/-- Profile ID used for the system DNS resolver. -/
def SystemResolverProfileID : String := "_system-resolver"

/-- Name used for the system DNS resolver. -/
def SystemResolverProfileName : String := "System DNS Client"

/-- Description used for the system DNS resolver. -/
def SystemResolverProfileDescription : String :=
  "The System DNS Client is a system service that requires special handling. For regular network connections, the configured settings will apply as usual, but DNS requests coming from the System DNS Client are handled in a special way, as they could actually be coming from any other application on the system.\n\nIn order to respect the app settings of the actual application, DNS requests from the System DNS Client are only subject to the following settings:\n\n- Outgoing Rules (without global rules)\n- Block Bypassing\n- Filter Lists\n\nIf you think you might have messed up the settings of the System DNS Client, just delete the profile below to reset it to the defaults.\n"

/-- Profile ID used for the Portmaster Core itself. -/
def PortmasterProfileID : String := "_portmaster"

/-- Name used for the Portmaster Core itself. -/
def PortmasterProfileName : String := "Portmaster Core Service"

/-- Description used for the Portmaster Core itself. -/
def PortmasterProfileDescription : String :=
  "This is the Portmaster itself, which runs in the background as a system service. App specific settings have no effect."

/-- Profile ID used for the Portmaster App. -/
def PortmasterAppProfileID : String := "_portmaster-app"

/-- Name used for the Portmaster App. -/
def PortmasterAppProfileName : String := "Portmaster User Interface"

/-- Description used for the Portmaster App. -/
def PortmasterAppProfileDescription : String := "This is the Portmaster UI Windows."

/-- Profile ID used for the Portmaster Notifier. -/
def PortmasterNotifierProfileID : String := "_portmaster-notifier"

/-- Name used for the Portmaster Notifier. -/
def PortmasterNotifierProfileName : String := "Portmaster Notifier"

/-- Description used for the Portmaster Notifier. -/
def PortmasterNotifierProfileDescription : String := "This is the Portmaster UI Tray Notifier."

/-- Modelled from the spec: profile source scope, an enum with the local scope
and other, replicated scopes (spec data model: `Source: enum(Local, Synced, ...)`).
The type itself is not under src/; only the local scope is referenced there. -/
inductive ProfileSource where
  | local
  | synced
deriving DecidableEq

/-- Modelled from the spec: settings values are opaque to this subsystem; the
literals occurring in src/ are strings and lists of strings, so those two
shapes are embedded. -/
inductive ConfigValue where
  | str (s : String)
  | strList (l : List String)
deriving DecidableEq

/-- Modelled from the spec: the option key for the default action, an opaque
option-key identifier from the configuration registry (not under src/). -/
def CfgOptionDefaultActionKey : String := "CfgOptionDefaultActionKey"

/-- Modelled from the spec: the option key for outgoing endpoint rules, an
opaque option-key identifier from the configuration registry (not under src/). -/
def CfgOptionEndpointsKey : String := "CfgOptionEndpointsKey"

/-- Modelled from the spec: the option key for incoming (service) endpoint
rules, an opaque option-key identifier from the configuration registry (not
under src/). -/
def CfgOptionServiceEndpointsKey : String := "CfgOptionServiceEndpointsKey"

/-- Modelled from the spec: the option key for filter-list selection, an opaque
option-key identifier from the configuration registry (not under src/). -/
def CfgOptionFilterListsKey : String := "CfgOptionFilterListsKey"

/-- Modelled from the spec: the Profile record (spec data model section 3); the
struct itself is not under src/. `Settings` is the settings bundle, `none`
meaning a nil map ("no overrides"); `Created` is a Unix timestamp;
`LastEdited` is a timestamp-or-zero, `0` the never-edited sentinel. -/
structure Profile where
  ID : String
  Source : ProfileSource
  Name : String
  Description : String
  LinkedPath : String
  Internal : Bool
  Settings : Option (List (String × ConfigValue))
  Created : Int
  LastEdited : Nat
deriving DecidableEq

/-- Modelled from the spec: the profile-construction primitive of the
persistence collaborator (spec section 6, not under src/): allocates a new
record given a source scope, an identity key, a linked path and an initial
settings bundle (`none` meaning no overrides). The record is created now and
has never been edited by a user; all other fields take their zero values. -/
def New (now : Int) (source : ProfileSource) (id linkedPath : String)
    (settings : Option (List (String × ConfigValue))) : Profile :=
  { ID := id
    Source := source
    Name := ""
    Description := ""
    LinkedPath := linkedPath
    Internal := false
    Settings := settings
    Created := now
    LastEdited := 0 }

/-- The identity-to-definition switch at the head of
`updateSpecialProfileMetadata`: the new profile name and description for each
special profile ID, `none` for any other ID (the `default` case). -/
def specialProfileDef (id : String) : Option (String × String) :=
  if id = UnidentifiedProfileID then
    some (UnidentifiedProfileName, UnidentifiedProfileDescription)
  else if id = SystemProfileID then
    some (SystemProfileName, SystemProfileDescription)
  else if id = SystemResolverProfileID then
    some (SystemResolverProfileName, SystemResolverProfileDescription)
  else if id = PortmasterProfileID then
    some (PortmasterProfileName, PortmasterProfileDescription)
  else if id = PortmasterAppProfileID then
    some (PortmasterAppProfileName, PortmasterAppProfileDescription)
  else if id = PortmasterNotifierProfileID then
    some (PortmasterNotifierProfileName, PortmasterNotifierProfileDescription)
  else
    none

/-- State-passing embedding of `updateSpecialProfileMetadata(profile *Profile,
binaryPath string) (ok, changed bool)`: returns the updated profile together
with `(ok, changed)`. -/
def updateSpecialProfileMetadata (profile : Profile) (binaryPath : String) :
    Profile × Bool × Bool :=
  match specialProfileDef profile.ID with
  | none => (profile, false, false)
  | some (newProfileName, newDescription) =>
    let st1 : Profile × Bool :=
      if profile.Name ≠ newProfileName then
        ({ profile with Name := newProfileName }, true)
      else (profile, false)
    let st2 : Profile × Bool :=
      if st1.1.Description ≠ newDescription then
        ({ st1.1 with Description := newDescription }, true)
      else st1
    let st3 : Profile × Bool :=
      if st2.1.LinkedPath ≠ binaryPath then
        ({ st2.1 with LinkedPath := binaryPath }, true)
      else st2
    (st3.1, true, st3.2)

/-- Embedding of `getSpecialProfile(profileID, linkedPath string) *Profile`.
The current time consumed by the profile constructor is passed explicitly as
`now`; the nil return of the `default` case is `none`. -/
def getSpecialProfile (now : Int) (profileID linkedPath : String) : Option Profile :=
  if profileID = UnidentifiedProfileID then
    some (New now ProfileSource.local UnidentifiedProfileID linkedPath none)
  else if profileID = SystemProfileID then
    some (New now ProfileSource.local SystemProfileID linkedPath none)
  else if profileID = SystemResolverProfileID then
    some (New now ProfileSource.local SystemResolverProfileID linkedPath
      (some [(CfgOptionDefaultActionKey, ConfigValue.str "permit"),
             (CfgOptionServiceEndpointsKey, ConfigValue.strList
               ["+ Localhost", "+ LAN UDP/5353", "+ LAN UDP/5355", "+ LAN UDP/1900"]),
             (CfgOptionFilterListsKey, ConfigValue.strList [])]))
  else if profileID = PortmasterProfileID then
    some { New now ProfileSource.local PortmasterProfileID linkedPath none with
           Internal := true }
  else if profileID = PortmasterAppProfileID then
    some { New now ProfileSource.local PortmasterAppProfileID linkedPath
             (some [(CfgOptionDefaultActionKey, ConfigValue.str "block"),
                    (CfgOptionEndpointsKey, ConfigValue.strList
                      ["+ Localhost", "+ .safing.io"])]) with
           Internal := true }
  else if profileID = PortmasterNotifierProfileID then
    some { New now ProfileSource.local PortmasterNotifierProfileID linkedPath
             (some [(CfgOptionDefaultActionKey, ConfigValue.str "block"),
                    (CfgOptionEndpointsKey, ConfigValue.strList ["+ Localhost"])]) with
           Internal := true }
  else
    none

/-- Splits a character list at every dot, the embedding of the separator scan
of Go `time.Parse` with layout day-dot-month-dot-year. -/
def splitOnDot : List Char → List (List Char)
  | [] => [[]]
  | c :: rest =>
    let r := splitOnDot rest
    if c = '.' then [] :: r
    else
      match r with
      | [] => [[c]]
      | g :: gs => (c :: g) :: gs

/-- Numeric value of a digit list (most significant first). -/
def digitsToNat (cs : List Char) : Nat :=
  cs.foldl (fun n c => n * 10 + (c.toNat - 48)) 0

/-- True when the list is nonempty and all characters are decimal digits. -/
def allDigits (cs : List Char) : Bool :=
  !cs.isEmpty && cs.all Char.isDigit

/-- Whether a year is a leap year (proleptic Gregorian, as Go `time`). -/
def isLeapYear (y : Nat) : Bool :=
  y % 4 = 0 && (y % 100 ≠ 0 || y % 400 = 0)

/-- Number of days of a month in a year, as validated by Go `time.Parse`. -/
def daysInMonth (y m : Nat) : Nat :=
  if m = 2 then (if isLeapYear y then 29 else 28)
  else if m = 4 ∨ m = 6 ∨ m = 9 ∨ m = 11 then 30
  else 31

/-- Days from the Unix epoch to a proleptic-Gregorian civil date. -/
def daysFromCivil (y : Int) (m d : Nat) : Int :=
  let yAdj : Int := if m ≤ 2 then y - 1 else y
  let era : Int := (if 0 ≤ yAdj then yAdj else yAdj - 399) / 400
  let yoe : Int := yAdj - era * 400
  let mp : Int := ((m : Int) + 9) % 12
  let doy : Int := (153 * mp + 2) / 5 + (d : Int) - 1
  let doe : Int := yoe * 365 + yoe / 4 - yoe / 100 + doy
  era * 146097 + doe - 719468

/-- Embedding of Go `time.Parse("2.1.2006", s).Unix()`: parses a
day-dot-month-dot-year date (day and month of one or two digits, year of four
digits, day validated against the month) and yields the Unix timestamp of
midnight UTC of that date; `none` is the parse error. -/
def timeParseDayMonthYear (s : String) : Option Int :=
  match splitOnDot s.toList with
  | [d, m, y] =>
    if allDigits d && d.length ≤ 2 && allDigits m && m.length ≤ 2 &&
        allDigits y && y.length = 4 then
      let dn := digitsToNat d
      let mn := digitsToNat m
      let yn := digitsToNat y
      if 1 ≤ mn && mn ≤ 12 && 1 ≤ dn && dn ≤ daysInMonth yn mn then
        some (daysFromCivil (yn : Int) mn dn * 86400)
      else none
    else none
  | _ => none

/-- Embedding of `canBeUpgraded(profile *Profile, upgradeDate string) bool`:
a failed parse of the upgrade date yields false (after logging a warning,
which is outside the pure embedding); otherwise the profile can be upgraded
exactly when it was created strictly before the parsed cutoff instant. -/
def canBeUpgraded (profile : Profile) (upgradeDate : String) : Bool :=
  match timeParseDayMonthYear upgradeDate with
  | none => false
  | some upgradeTime => profile.Created < upgradeTime

/-- Embedding of `specialProfileNeedsReset(profile *Profile) bool`; the nil
pointer is `none`. -/
def specialProfileNeedsReset (profile : Option Profile) : Bool :=
  match profile with
  | none => false
  | some profile =>
    if profile.Source ≠ ProfileSource.local then false
    else if profile.LastEdited > 0 then false
    else if profile.ID = SystemResolverProfileID then
      canBeUpgraded profile "20.11.2021"
    else if profile.ID = PortmasterAppProfileID then
      canBeUpgraded profile "8.9.2021"
    else false

/-- State-passing embedding of `canBeUpgraded`, returning the profile passed
by pointer alongside the boolean result, to make explicit that no field of the
profile is written on any path. -/
def canBeUpgradedState (profile : Profile) (upgradeDate : String) : Profile × Bool :=
  match timeParseDayMonthYear upgradeDate with
  | none => (profile, false)
  | some upgradeTime => (profile, profile.Created < upgradeTime)

/-- State-passing embedding of `specialProfileNeedsReset`, returning the
profile passed by pointer alongside the boolean result, to make explicit that
no field of the profile is written on any path. -/
def specialProfileNeedsResetState (profile : Option Profile) : Option Profile × Bool :=
  match profile with
  | none => (none, false)
  | some profile =>
    if profile.Source ≠ ProfileSource.local then (some profile, false)
    else if profile.LastEdited > 0 then (some profile, false)
    else if profile.ID = SystemResolverProfileID then
      let st := canBeUpgradedState profile "20.11.2021"
      (some st.1, st.2)
    else if profile.ID = PortmasterAppProfileID then
      let st := canBeUpgradedState profile "8.9.2021"
      (some st.1, st.2)
    else (some profile, false)

/-- Sample stored record for the system identity, used by witnesses. -/
def sampleSystemProfile : Profile :=
  { ID := SystemProfileID
    Source := ProfileSource.local
    Name := "Old Name"
    Description := "Old description."
    LinkedPath := "/usr/bin/old"
    Internal := false
    Settings := none
    Created := 100
    LastEdited := 0 }

/-- Sample stored record for an ordinary application, whose ID is none of the
six well-known identities, used by witnesses. -/
def sampleOrdinaryProfile : Profile :=
  { ID := "/usr/bin/curl"
    Source := ProfileSource.local
    Name := "curl"
    Description := "A transfer tool."
    LinkedPath := "/usr/bin/curl"
    Internal := false
    Settings := none
    Created := 100
    LastEdited := 0 }

/-- Helper: on an ID with no catalog entry, `updateSpecialProfileMetadata`
returns the profile unchanged with `(ok, changed) = (false, false)`. -/
theorem update_not_special (pr : Profile) (path : String)
    (h : specialProfileDef pr.ID = none) :
    updateSpecialProfileMetadata pr path = (pr, false, false) := by
  simp [updateSpecialProfileMetadata, h]

/-- Helper: on an ID with catalog entry `(nm, ds)`, the result of
`updateSpecialProfileMetadata` in closed form. -/
theorem update_special (pr : Profile) (path nm ds : String)
    (h : specialProfileDef pr.ID = some (nm, ds)) :
    updateSpecialProfileMetadata pr path =
      ({ pr with Name := nm, Description := ds, LinkedPath := path }, true,
        !(pr.Name == nm && pr.Description == ds && pr.LinkedPath == path)) := by
  obtain ⟨id, src, name, desc, lp, intl, st, cr, le⟩ := pr
  simp only [updateSpecialProfileMetadata, h] at *
  by_cases h1 : name = nm <;> by_cases h2 : desc = ds <;> by_cases h3 : lp = path <;>
    simp [h1, h2, h3]

/-- Claim C3: for every profile whose ID is one of the six well-known
identities — equivalently, whose ID has a catalog entry `some (nm, ds)` —
`updateSpecialProfileMetadata` returns ok = true, leaves the profile's Name,
Description and LinkedPath equal to the catalog name, the catalog description
and the supplied binary path, and returns changed = true exactly when at least
one of those three fields differed from its target value beforehand. -/
theorem updateSpecialProfileMetadata_reconciles (pr : Profile) (path nm ds : String)
    (h : specialProfileDef pr.ID = some (nm, ds)) :
    (updateSpecialProfileMetadata pr path).2.1 = true ∧
    (updateSpecialProfileMetadata pr path).1.Name = nm ∧
    (updateSpecialProfileMetadata pr path).1.Description = ds ∧
    (updateSpecialProfileMetadata pr path).1.LinkedPath = path ∧
    ((updateSpecialProfileMetadata pr path).2.2 = true ↔
      ¬(pr.Name = nm ∧ pr.Description = ds ∧ pr.LinkedPath = path)) := by
  rw [update_special pr path nm ds h]
  simp
  tauto

/-- Witness for claim C3 at a concrete stored system profile. -/
theorem updateSpecialProfileMetadata_reconciles_witness :
    (updateSpecialProfileMetadata sampleSystemProfile "/usr/bin/new").2.1 = true ∧
    (updateSpecialProfileMetadata sampleSystemProfile "/usr/bin/new").1.Name =
      SystemProfileName :=
  have h := updateSpecialProfileMetadata_reconciles sampleSystemProfile "/usr/bin/new"
    SystemProfileName SystemProfileDescription (by decide)
  ⟨h.1, h.2.1⟩

/-- Claim C5: `updateSpecialProfileMetadata` is idempotent — running it again
on the resulting profile with the same binary path reports changed = false. -/
theorem updateSpecialProfileMetadata_idempotent (pr : Profile) (path : String) :
    (updateSpecialProfileMetadata (updateSpecialProfileMetadata pr path).1 path).2.2 =
      false := by
  cases hd : specialProfileDef pr.ID with
  | none =>
    rw [update_not_special pr path hd]
    rw [update_not_special pr path hd]
  | some v =>
    obtain ⟨nm, ds⟩ := v
    rw [update_special pr path nm ds hd]
    have hd' : specialProfileDef
        ({ pr with Name := nm, Description := ds, LinkedPath := path } : Profile).ID =
        some (nm, ds) := hd
    rw [update_special _ path nm ds hd']
    simp

/-- Claim C6: on a profile whose ID is none of the six well-known identities,
`updateSpecialProfileMetadata` returns `(false, false)` and leaves every field
of the profile unchanged. -/
theorem updateSpecialProfileMetadata_unrecognized (pr : Profile) (path : String)
    (h1 : pr.ID ≠ UnidentifiedProfileID) (h2 : pr.ID ≠ SystemProfileID)
    (h3 : pr.ID ≠ SystemResolverProfileID) (h4 : pr.ID ≠ PortmasterProfileID)
    (h5 : pr.ID ≠ PortmasterAppProfileID) (h6 : pr.ID ≠ PortmasterNotifierProfileID) :
    updateSpecialProfileMetadata pr path = (pr, false, false) := by
  apply update_not_special
  simp [specialProfileDef, h1, h2, h3, h4, h5, h6]

/-- Witness for claim C6 at a concrete ordinary profile. -/
theorem updateSpecialProfileMetadata_unrecognized_witness :
    updateSpecialProfileMetadata sampleOrdinaryProfile "/usr/bin/new" =
      (sampleOrdinaryProfile, false, false) :=
  updateSpecialProfileMetadata_unrecognized sampleOrdinaryProfile "/usr/bin/new"
    (by decide) (by decide) (by decide) (by decide) (by decide) (by decide)

/-- Claim C7: `updateSpecialProfileMetadata` never modifies the profile's
Settings, and more broadly changes no field other than Name, Description and
LinkedPath: ID, Source, Internal, Settings, Created and LastEdited are
preserved on every input. -/
theorem updateSpecialProfileMetadata_frame (pr : Profile) (path : String) :
    (updateSpecialProfileMetadata pr path).1.Settings = pr.Settings ∧
    (updateSpecialProfileMetadata pr path).1.ID = pr.ID ∧
    (updateSpecialProfileMetadata pr path).1.Source = pr.Source ∧
    (updateSpecialProfileMetadata pr path).1.Internal = pr.Internal ∧
    (updateSpecialProfileMetadata pr path).1.Created = pr.Created ∧
    (updateSpecialProfileMetadata pr path).1.LastEdited = pr.LastEdited := by
  cases hd : specialProfileDef pr.ID with
  | none =>
    rw [update_not_special pr path hd]
    exact ⟨rfl, rfl, rfl, rfl, rfl, rfl⟩
  | some v =>
    obtain ⟨nm, ds⟩ := v
    rw [update_special pr path nm ds hd]
    exact ⟨rfl, rfl, rfl, rfl, rfl, rfl⟩

/-- Helper: the hard-coded system-resolver cutoff date parses to the Unix
instant of midnight UTC, 20 Nov 2021. -/
theorem timeParse_systemResolver_cutoff :
    timeParseDayMonthYear "20.11.2021" = some 1637366400 := by decide

/-- Helper: the hard-coded Portmaster-app cutoff date parses to the Unix
instant of midnight UTC, 8 Sep 2021. -/
theorem timeParse_portmasterApp_cutoff :
    timeParseDayMonthYear "8.9.2021" = some 1631059200 := by decide

/-- Claim C2: `specialProfileNeedsReset` returns true exactly for a present,
Local-source, never-edited profile whose ID is the system-resolver identity
created strictly before the 20.11.2021 cutoff instant, or the Portmaster-app
identity created strictly before the 8.9.2021 cutoff instant. -/
theorem specialProfileNeedsReset_iff (p : Option Profile) :
    specialProfileNeedsReset p = true ↔
      ∃ pr, p = some pr ∧ pr.Source = ProfileSource.local ∧ pr.LastEdited = 0 ∧
        ((pr.ID = SystemResolverProfileID ∧ pr.Created < 1637366400) ∨
         (pr.ID = PortmasterAppProfileID ∧ pr.Created < 1631059200)) := by
  cases p with
  | none => simp [specialProfileNeedsReset]
  | some pr =>
    have hne : SystemResolverProfileID ≠ PortmasterAppProfileID := by decide
    simp only [specialProfileNeedsReset, canBeUpgraded,
      timeParse_systemResolver_cutoff, timeParse_portmasterApp_cutoff]
    by_cases hsrc : pr.Source = ProfileSource.local <;>
      by_cases hedit : pr.LastEdited > 0 <;>
      by_cases hres : pr.ID = SystemResolverProfileID <;>
      by_cases happ : pr.ID = PortmasterAppProfileID <;>
      simp_all <;> omega

/-- Claim C8: when the cutoff-date string fails to parse under the fixed
layout, `canBeUpgraded` reports that no reset is needed and the profile is
unaffected. -/
theorem canBeUpgraded_parse_failure (pr : Profile) (s : String)
    (h : timeParseDayMonthYear s = none) :
    canBeUpgraded pr s = false ∧ (canBeUpgradedState pr s).1 = pr := by
  simp [canBeUpgraded, canBeUpgradedState, h]

/-- Witness for claim C8 at a concrete malformed date string. -/
theorem canBeUpgraded_parse_failure_witness :
    canBeUpgraded sampleSystemProfile "not-a-date" = false ∧
    (canBeUpgradedState sampleSystemProfile "not-a-date").1 = sampleSystemProfile :=
  canBeUpgraded_parse_failure sampleSystemProfile "not-a-date" (by decide)

/-- Helper: the state-passing `canBeUpgraded` returns its profile unchanged
and agrees with the boolean version. -/
theorem canBeUpgradedState_spec (pr : Profile) (s : String) :
    (canBeUpgradedState pr s).1 = pr ∧ (canBeUpgradedState pr s).2 = canBeUpgraded pr s := by
  unfold canBeUpgradedState canBeUpgraded
  cases timeParseDayMonthYear s <;> simp

/-- Claim C10: `specialProfileNeedsReset` and its helper `canBeUpgraded` are
pure queries: on every input the state-passing embeddings return the profile
with every field unchanged, while computing the same boolean results. -/
theorem specialProfileNeedsReset_pure (p : Option Profile) :
    (specialProfileNeedsResetState p).1 = p ∧
    (specialProfileNeedsResetState p).2 = specialProfileNeedsReset p ∧
    ∀ (pr : Profile) (s : String),
      (canBeUpgradedState pr s).1 = pr ∧ (canBeUpgradedState pr s).2 = canBeUpgraded pr s := by
  refine ⟨?_, ?_, fun pr s => canBeUpgradedState_spec pr s⟩ <;>
  · cases p with
    | none => rfl
    | some pr =>
      simp only [specialProfileNeedsResetState, specialProfileNeedsReset]
      split_ifs <;> simp [(canBeUpgradedState_spec _ _).1, (canBeUpgradedState_spec _ _).2]

/-- Counterexample to claim C1 as stated: the factory record for the
unidentified identity carries an empty Name, not the catalog name. -/
theorem getSpecialProfile_name_counterexample :
    (getSpecialProfile 0 UnidentifiedProfileID "/usr/bin/x").map Profile.Name ≠
      some UnidentifiedProfileName := by decide

/-- Claim C1 (amended): for each of the six catalog identities,
`getSpecialProfile` returns a record with that ID, Source Local, the supplied
linked path, creation time now, never user-edited, and Internal true exactly
for the three identities of the monitoring system's own processes; Name and
Description are left empty by the profile constructor (they are populated by
`updateSpecialProfileMetadata`, not by the factory). -/
theorem getSpecialProfile_fields (now : Int) (id path : String)
    (h : id = UnidentifiedProfileID ∨ id = SystemProfileID ∨
         id = SystemResolverProfileID ∨ id = PortmasterProfileID ∨
         id = PortmasterAppProfileID ∨ id = PortmasterNotifierProfileID) :
    ∃ pr, getSpecialProfile now id path = some pr ∧ pr.ID = id ∧
      pr.Source = ProfileSource.local ∧ pr.LinkedPath = path ∧ pr.Name = "" ∧
      pr.Description = "" ∧ pr.Created = now ∧ pr.LastEdited = 0 ∧
      (pr.Internal = true ↔
        (id = PortmasterProfileID ∨ id = PortmasterAppProfileID ∨
          id = PortmasterNotifierProfileID)) := by
  rcases h with h | h | h | h | h | h <;> subst h <;>
    exact ⟨_, rfl, rfl, rfl, rfl, rfl, rfl, rfl, rfl, by
      simp [New, UnidentifiedProfileID, SystemProfileID, SystemResolverProfileID,
        PortmasterProfileID, PortmasterAppProfileID, PortmasterNotifierProfileID]⟩

/-- Witness for claim C1 (amended) at the Portmaster core identity. -/
theorem getSpecialProfile_fields_witness :
    ∃ pr, getSpecialProfile 5 PortmasterProfileID "/usr/bin/portmaster" = some pr ∧
      pr.ID = PortmasterProfileID ∧ pr.Source = ProfileSource.local ∧
      pr.LinkedPath = "/usr/bin/portmaster" ∧ pr.Name = "" ∧ pr.Description = "" ∧
      pr.Created = 5 ∧ pr.LastEdited = 0 ∧
      (pr.Internal = true ↔
        (PortmasterProfileID = PortmasterProfileID ∨
          PortmasterProfileID = PortmasterAppProfileID ∨
          PortmasterProfileID = PortmasterNotifierProfileID)) :=
  getSpecialProfile_fields 5 PortmasterProfileID "/usr/bin/portmaster" (by decide)

/-- Claim C4: the factory record for the system-resolver identity is seeded
with the curated settings bundle: default action permit, service endpoints
allowing Localhost and LAN UDP ports 5353, 5355 and 1900, and an explicitly
empty filter-list selection. -/
theorem getSpecialProfile_systemResolver_settings (now : Int) (path : String) :
    (getSpecialProfile now SystemResolverProfileID path).map Profile.Settings =
      some (some [(CfgOptionDefaultActionKey, ConfigValue.str "permit"),
        (CfgOptionServiceEndpointsKey, ConfigValue.strList
          ["+ Localhost", "+ LAN UDP/5353", "+ LAN UDP/5355", "+ LAN UDP/1900"]),
        (CfgOptionFilterListsKey, ConfigValue.strList [])]) := by
  rfl

/-- Claim C9: the factory also seeds curated bundles for the Portmaster app
(default action block, outgoing endpoints Localhost and .safing.io) and the
Portmaster notifier (default action block, outgoing endpoint Localhost), and
passes a nil settings bundle for the unidentified, system and Portmaster-core
identities. -/
theorem getSpecialProfile_settings_bundles (now : Int) (path : String) :
    (getSpecialProfile now PortmasterAppProfileID path).map Profile.Settings =
      some (some [(CfgOptionDefaultActionKey, ConfigValue.str "block"),
        (CfgOptionEndpointsKey, ConfigValue.strList ["+ Localhost", "+ .safing.io"])]) ∧
    (getSpecialProfile now PortmasterNotifierProfileID path).map Profile.Settings =
      some (some [(CfgOptionDefaultActionKey, ConfigValue.str "block"),
        (CfgOptionEndpointsKey, ConfigValue.strList ["+ Localhost"])]) ∧
    (getSpecialProfile now UnidentifiedProfileID path).map Profile.Settings = some none ∧
    (getSpecialProfile now SystemProfileID path).map Profile.Settings = some none ∧
    (getSpecialProfile now PortmasterProfileID path).map Profile.Settings = some none :=
  ⟨rfl, rfl, rfl, rfl, rfl⟩

end Portmaster
